import Mathlib

/-!
Shallow embedding of `src/ui/gl/gl_detection.cpp` (namespace `Ui::GL` of the
desktop-app `lib_ui` library) and proofs about its crash-guard protocol,
capability probe and ANGLE backend-preference persistence.

Modelling conventions:
* The durable sentinel file (path `Integration::Instance().openglCheckFilePath()`)
  has existence-only semantics, so it is modelled as a `Bool` ("file exists").
  Each file operation takes an extra `Bool` telling whether the underlying
  storage call (open-for-write / remove) succeeds, mirroring that the C++ code
  ignores those failures.
* `CheckCapabilities` reads its environment (Qt window, OpenGL context, driver)
  through a `ProbeEnv` record holding the answers the code would query.  The
  risky statement `tester.grabFramebuffer()` can return normally, raise a C++
  exception, or terminate the process; the plain sequential statements
  `CrashCheckStart(); tester.grabFramebuffer(); CrashCheckFinish();` are
  embedded exactly as written: an exception propagates past the finish call.
  The result also carries the list of crash-guard calls actually executed.
* The ANGLE preference file content is a `List Char` (QByteArray); the
  process-wide `ResolvedANGLE` variable and the `DESKTOP_APP_QT_ANGLE_PLATFORM`
  environment variable form a `ConfigState`.  `ConfigureANGLE` additionally
  returns how many warning lines it logged during the call.
-/

namespace UiGL

/-- The ANGLE backend enumeration used by `ConfigureANGLE` / `ChangeANGLE`. -/
inductive ANGLE
  | Auto
  | OpenGL
  | D3D9
  | D3D11
  | D3D11on12
deriving DecidableEq, Repr

/-- The capability record returned by `CheckCapabilities`; `return {}` in the
C++ code produces the zero value `⟨false, false⟩`. -/
structure Capabilities where
  supported : Bool := false
  transparency : Bool := false
deriving DecidableEq, Repr

/-- `CrashCheckStart`: open the sentinel file for writing (creating it) and
write one byte.  `openOk` tells whether the open succeeds; on failure the file
state is unchanged (the code silently skips the write). -/
def CrashCheckStart (sentinel openOk : Bool) : Bool :=
  if openOk then true else sentinel

/-- `CrashCheckFinish`: `QFile::remove` of the sentinel file; `removeOk` tells
whether removal succeeds (the return value is ignored by the code). -/
def CrashCheckFinish (sentinel removeOk : Bool) : Bool :=
  if removeOk then false else sentinel

/-- `LastCrashCheckFailed`: `QFile::exists` on the sentinel path. -/
def LastCrashCheckFailed (sentinel : Bool) : Bool :=
  sentinel

/-- One full begin/end bracket with the durable store succeeding. -/
def guardCycle (sentinel : Bool) : Bool :=
  CrashCheckFinish (CrashCheckStart sentinel true) true

/-- `ForceDisable(bool disable)`: assigns the process-wide `ForceDisabled`. -/
def ForceDisable (disable : Bool) : Bool :=
  disable

/-- Outcome of the risky statement `tester.grabFramebuffer()`: normal return,
a C++ exception propagating out, or process termination (driver crash). -/
inductive RiskyOutcome
  | ok
  | raises
  | dies
deriving DecidableEq, Repr

/-- `QSurfaceFormat::profile()` of the negotiated context format. -/
inductive GLProfile
  | NoProfile
  | CoreProfile
  | CompatibilityProfile
deriving DecidableEq, Repr

/-- Answers the widget path of `CheckCapabilities` queries: whether a window
handle could be obtained (after `createWinId`), and `supportsOpenGL()`. -/
structure WidgetHint where
  handleOk : Bool
  supportsGL : Bool
deriving DecidableEq, Repr

/-- Environment read by one `CheckCapabilities` call. -/
structure ProbeEnv where
  forceDisabled : Bool
  widget : Option WidgetHint
  grabOutcome : RiskyOutcome
  contextValid : Bool
  hasNPOTTextures : Bool
  hasFramebuffers : Bool
  hasShaders : Bool
  programLinked : Bool
  profile : GLProfile
  renderableTypeES : Bool
  alphaBufferSize : Nat
deriving DecidableEq, Repr

/-- A crash-guard call executed during the probe. -/
inductive GuardEvent
  | start
  | finish
deriving DecidableEq, Repr

/-- How a `CheckCapabilities` call ends: normal return of a record, a
propagated exception, or process death inside the risky step. -/
inductive ProbeResult
  | normal (caps : Capabilities)
  | thrown
  | died
deriving DecidableEq, Repr

/-- The record built at the end of the success path: `supported := true`,
and `transparency := true` iff the negotiated alpha buffer size is ≥ 8. -/
def successCaps (env : ProbeEnv) : Capabilities :=
  { supported := true, transparency := decide (8 ≤ env.alphaBufferSize) }

/-- The part of `CheckCapabilities` from `CrashCheckStart()` onwards,
translated statement by statement.  The guard calls are sequential plain
statements in the source: when `grabFramebuffer` raises or kills the process,
`CrashCheckFinish` is never reached. -/
def probeAfterFormat (env : ProbeEnv) : ProbeResult × List GuardEvent :=
  match env.grabOutcome with
  | .dies => (.died, [.start])
  | .raises => (.thrown, [.start])
  | .ok =>
    let events := [GuardEvent.start, GuardEvent.finish]
    if !env.contextValid then (.normal {}, events)
    else if !env.hasNPOTTextures then (.normal {}, events)
    else if !env.hasFramebuffers then (.normal {}, events)
    else if !env.hasShaders then (.normal {}, events)
    else if !env.programLinked then (.normal {}, events)
    else
      match env.profile with
      | .NoProfile =>
        if env.renderableTypeES then (.normal (successCaps env), events)
        else (.normal {}, events)
      | .CoreProfile => (.normal (successCaps env), events)
      | .CompatibilityProfile => (.normal (successCaps env), events)

/-- `CheckCapabilities(QWidget *widget)`: force-disable short circuit, widget
window/`supportsOpenGL` checks, then the guarded probe. -/
def CheckCapabilities (env : ProbeEnv) : ProbeResult × List GuardEvent :=
  if env.forceDisabled then (.normal {}, [])
  else
    match env.widget with
    | some w =>
      if !w.handleOk then (.normal {}, [])
      else if !w.supportsGL then (.normal {}, [])
      else probeAfterFormat env
    | none => probeAfterFormat env

/-- Whether the pre-probe widget checks pass (no widget always passes). -/
def widgetPasses : Option WidgetHint → Bool
  | none => true
  | some w => w.handleOk && w.supportsGL

/-- Replay the executed crash-guard calls on a sentinel state (durable store
succeeding). -/
def applySentinel (s : Bool) : List GuardEvent → Bool
  | [] => s
  | .start :: rest => applySentinel (CrashCheckStart s true) rest
  | .finish :: rest => applySentinel (CrashCheckFinish s true) rest

/-- Process-wide ANGLE configuration state: the `ResolvedANGLE` variable and
the `DESKTOP_APP_QT_ANGLE_PLATFORM` environment variable. -/
structure ConfigState where
  resolvedANGLE : ANGLE
  envANGLEPlatform : Option (List Char)
deriving DecidableEq, Repr

/-- Process start state: `ANGLE ResolvedANGLE = ANGLE::Auto;` and no
environment directive. -/
def initialConfigState : ConfigState :=
  ⟨ANGLE.Auto, none⟩

/-- Token written for the OpenGL backend. -/
def glToken : List Char := ['g', 'l']

/-- Token written for the D3D9 backend. -/
def d3d9Token : List Char := ['d', '3', 'd', '9']

/-- Token written for the D3D11 backend. -/
def d3d11Token : List Char := ['d', '3', 'd', '1', '1']

/-- Token written for the D3D11on12 backend. -/
def d3d11on12Token : List Char := ['d', '3', 'd', '1', '1', 'o', 'n', '1', '2']

/-- The `check` lambda inside `ConfigureANGLE`: if the file bytes start with
the backend token, set `ResolvedANGLE` and publish the directive. -/
def checkBackend (bytes token : List Char) (angle : ANGLE) (st : ConfigState) :
    ConfigState :=
  if List.isPrefixOf token bytes then ⟨angle, some token⟩ else st

/-- `ConfigureANGLE()`: unset the directive, read up to 32 bytes of the
preference file, try each token in source order, and warn when the resolved
value is still `Auto`.  `pathIsEmpty` models `path.isEmpty()`, `file` the file
content (`none` = absent), `readOk` whether `open(ReadOnly)` succeeds.  The
second component counts warning lines logged by this call. -/
def ConfigureANGLE (st : ConfigState) (pathIsEmpty : Bool)
    (file : Option (List Char)) (readOk : Bool) : ConfigState × Nat :=
  let st := { st with envANGLEPlatform := none }
  if pathIsEmpty then (st, 0)
  else
    match file, readOk with
    | none, _ => (st, 0)
    | some _, false => (st, 0)
    | some content, true =>
      let bytes := List.take 32 content
      let st := checkBackend bytes glToken ANGLE.OpenGL st
      let st := checkBackend bytes d3d9Token ANGLE.D3D9 st
      let st := checkBackend bytes d3d11Token ANGLE.D3D11 st
      let st := checkBackend bytes d3d11on12Token ANGLE.D3D11on12 st
      if st.resolvedANGLE = ANGLE.Auto then (st, 1) else (st, 0)

/-- The `write` lambda inside `ChangeANGLE`: overwrite the file on successful
open, otherwise log and leave the file as it was. -/
def writeBackendFile (file : Option (List Char)) (writeOk : Bool)
    (token : List Char) : Option (List Char) :=
  if writeOk then some token else file

/-- `ChangeANGLE(ANGLE backend)`: switch over the enumeration writing the
canonical token (`Auto` removes the file).  The C++ `default:` branch raises
`Unexpected(...)`, representable here as `Except.error`; the match lists
exactly the five labelled cases of the switch, so the error value would only
arise from a value outside the enumeration, which the type excludes. -/
def ChangeANGLE (backend : ANGLE) (file : Option (List Char)) (ioOk : Bool) :
    Except String (Option (List Char)) :=
  match backend with
  | ANGLE.Auto => .ok (if ioOk then none else file)
  | ANGLE.D3D9 => .ok (writeBackendFile file ioOk d3d9Token)
  | ANGLE.D3D11 => .ok (writeBackendFile file ioOk d3d11Token)
  | ANGLE.D3D11on12 => .ok (writeBackendFile file ioOk d3d11on12Token)
  | ANGLE.OpenGL => .ok (writeBackendFile file ioOk glToken)

/-- `CurrentANGLE()`: returns the process-wide `ResolvedANGLE`. -/
def CurrentANGLE (st : ConfigState) : ANGLE :=
  st.resolvedANGLE

/-- A probe environment in which `grabFramebuffer` raises an exception. -/
def envRaises : ProbeEnv :=
  { forceDisabled := false, widget := none, grabOutcome := .raises,
    contextValid := true, hasNPOTTextures := true, hasFramebuffers := true,
    hasShaders := true, programLinked := true, profile := .CoreProfile,
    renderableTypeES := false, alphaBufferSize := 8 }

/-- A second raising environment, this time with a widget hint present. -/
def envRaisesWidget : ProbeEnv :=
  { forceDisabled := false, widget := some ⟨true, true⟩, grabOutcome := .raises,
    contextValid := true, hasNPOTTextures := true, hasFramebuffers := true,
    hasShaders := true, programLinked := true,
    profile := .CompatibilityProfile, renderableTypeES := false,
    alphaBufferSize := 8 }

/-- A fully successful probe environment (core profile, 8-bit alpha). -/
def envSuccess : ProbeEnv :=
  { forceDisabled := false, widget := none, grabOutcome := .ok,
    contextValid := true, hasNPOTTextures := true, hasFramebuffers := true,
    hasShaders := true, programLinked := true, profile := .CoreProfile,
    renderableTypeES := false, alphaBufferSize := 8 }

/-- A force-disabled probe environment. -/
def envDisabled : ProbeEnv :=
  { envSuccess with forceDisabled := true }

/-- An environment reaching the feature stage with shaders missing. -/
def envNoShaders : ProbeEnv :=
  { envSuccess with hasShaders := false }

/-- When force-disable is off and the widget checks pass, `CheckCapabilities`
reduces to the guarded probe. -/
lemma checkCapabilities_eq_probe (env : ProbeEnv)
    (hf : env.forceDisabled = false)
    (hw : widgetPasses env.widget = true) :
    CheckCapabilities env = probeAfterFormat env := by
  unfold CheckCapabilities
  rw [hf]
  cases hwid : env.widget with
  | none => simp
  | some w =>
    rw [hwid] at hw
    unfold widgetPasses at hw
    simp only [Bool.and_eq_true] at hw
    simp [hw.1, hw.2]

/-- Exhaustive description of the value component of the guarded probe. -/
lemma probeAfterFormat_fst_cases (env : ProbeEnv) :
    (probeAfterFormat env).1 = ProbeResult.normal ⟨false, false⟩ ∨
    (probeAfterFormat env).1 = ProbeResult.normal (successCaps env) ∨
    (env.grabOutcome ≠ RiskyOutcome.ok ∧
      ((probeAfterFormat env).1 = ProbeResult.thrown ∨
        (probeAfterFormat env).1 = ProbeResult.died)) := by
  unfold probeAfterFormat
  cases hg : env.grabOutcome with
  | dies => exact Or.inr (Or.inr ⟨by simp [hg], Or.inr rfl⟩)
  | raises => exact Or.inr (Or.inr ⟨by simp [hg], Or.inl rfl⟩)
  | ok =>
    simp only
    repeat' split
    all_goals first
      | exact Or.inl rfl
      | exact Or.inr (Or.inl rfl)

/-- When the risky step returns normally, both guard calls are executed. -/
lemma probeAfterFormat_snd_ok (env : ProbeEnv)
    (hg : env.grabOutcome = RiskyOutcome.ok) :
    (probeAfterFormat env).2 = [GuardEvent.start, GuardEvent.finish] := by
  unfold probeAfterFormat
  rw [hg]
  repeat' split
  all_goals first | rfl | simp_all

/-- When the risky step raises or kills the process, only the start call is
executed: the finish call is never reached. -/
lemma probeAfterFormat_snd_notok (env : ProbeEnv)
    (hg : env.grabOutcome ≠ RiskyOutcome.ok) :
    (probeAfterFormat env).2 = [GuardEvent.start] := by
  unfold probeAfterFormat
  cases h : env.grabOutcome with
  | dies => rfl
  | raises => rfl
  | ok => exact absurd h hg

/-- When the risky step returns normally, the probe returns normally. -/
lemma probeAfterFormat_ok_normal (env : ProbeEnv)
    (hg : env.grabOutcome = RiskyOutcome.ok) :
    (probeAfterFormat env).1 = ProbeResult.normal ⟨false, false⟩ ∨
    (probeAfterFormat env).1 = ProbeResult.normal (successCaps env) := by
  rcases probeAfterFormat_fst_cases env with h | h | h
  · exact Or.inl h
  · exact Or.inr h
  · exact absurd hg h.1

/-- C2: if `CrashCheckStart` runs (durable store succeeding) and the process
terminates before `CrashCheckFinish`, the sentinel survives and a fresh run's
`LastCrashCheckFailed` returns `true`; after a subsequent begin/end cycle
completes, it returns `false` again. -/
theorem c2_crash_detection (sentinel : Bool) :
    LastCrashCheckFailed (CrashCheckStart sentinel true) = true ∧
    LastCrashCheckFailed (guardCycle (CrashCheckStart sentinel true)) = false := by
  cases sentinel <;> decide

/-- C5: starting from an absent sentinel, N begin/end cycles (store
succeeding) leave the sentinel absent and `LastCrashCheckFailed` false;
moreover `CrashCheckStart` leaves the sentinel present even when it already
is (overwrite), and `CrashCheckFinish` on an absent sentinel is a no-op. -/
theorem c5_idempotent_guard (N : Nat) (s : Bool) (h : s = false) :
    (guardCycle^[N] s = false ∧
      LastCrashCheckFailed (guardCycle^[N] s) = false) ∧
    (∀ t : Bool, CrashCheckStart t true = true) ∧
    (∀ t : Bool, t = false → CrashCheckFinish t true = t) := by
  have hiter : guardCycle^[N] s = false := by
    cases N with
    | zero => simpa using h
    | succ n =>
      rw [Function.iterate_succ_apply']
      simp [guardCycle, CrashCheckStart, CrashCheckFinish]
  refine ⟨⟨hiter, by simp [LastCrashCheckFailed, hiter]⟩, ?_, ?_⟩
  · intro t; simp [CrashCheckStart]
  · intro t ht; simp [CrashCheckFinish, ht]

/-- Closed instance of `c5_idempotent_guard` at N = 3 from the empty store. -/
theorem c5_idempotent_guard_instance :
    (guardCycle^[3] false = false ∧
      LastCrashCheckFailed (guardCycle^[3] false) = false) ∧
    (∀ t : Bool, CrashCheckStart t true = true) ∧
    (∀ t : Bool, t = false → CrashCheckFinish t true = t) :=
  c5_idempotent_guard 3 false rfl

/-- C3: with the process-wide switch set by `ForceDisable true`,
`CheckCapabilities` returns the zero record at once and executes no
crash-guard call (in particular `CrashCheckStart` never runs, so the durable
sentinel is untouched). -/
theorem c3_force_disabled (env : ProbeEnv)
    (h : env.forceDisabled = ForceDisable true) :
    CheckCapabilities env =
      (ProbeResult.normal ⟨false, false⟩, ([] : List GuardEvent)) := by
  unfold CheckCapabilities
  rw [h]
  rfl

/-- Closed instance of `c3_force_disabled` on `envDisabled`. -/
theorem c3_force_disabled_instance :
    CheckCapabilities envDisabled =
      (ProbeResult.normal ⟨false, false⟩, ([] : List GuardEvent)) :=
  c3_force_disabled envDisabled rfl

/-- C1 is false as stated: in an execution where `tester.grabFramebuffer()`
raises an exception — so the process survives the risky step — the
sentinel-clearing `CrashCheckFinish` call does not run (the two guard calls
are plain sequential statements, not a scope guard), and replaying the
executed guard calls on an initially absent sentinel leaves it present. -/
theorem c1_counterexample :
    (CheckCapabilities envRaises).1 = ProbeResult.thrown ∧
    GuardEvent.finish ∉ (CheckCapabilities envRaises).2 ∧
    applySentinel false (CheckCapabilities envRaises).2 = true := by
  decide

/-- C1 (amended): for every probe execution that reaches the risky step,
`CrashCheckFinish` is executed iff `tester.grabFramebuffer()` returns
normally; when it raises an exception the exception propagates out of
`CheckCapabilities` and the sentinel stays set, there being no
guaranteed-release scope guard around the risky statement. -/
theorem c1_finish_guard (env : ProbeEnv) (s : Bool)
    (hf : env.forceDisabled = false)
    (hw : widgetPasses env.widget = true) :
    (GuardEvent.finish ∈ (CheckCapabilities env).2 ↔
      env.grabOutcome = RiskyOutcome.ok) ∧
    (env.grabOutcome = RiskyOutcome.raises →
      (CheckCapabilities env).1 = ProbeResult.thrown ∧
      applySentinel s (CheckCapabilities env).2 = true) := by
  rw [checkCapabilities_eq_probe env hf hw]
  constructor
  · constructor
    · intro hmem
      by_contra hne
      rw [probeAfterFormat_snd_notok env hne] at hmem
      exact absurd hmem (by decide)
    · intro hok
      rw [probeAfterFormat_snd_ok env hok]
      decide
  · intro hr
    have hne : env.grabOutcome ≠ RiskyOutcome.ok := by
      rw [hr]; decide
    refine ⟨?_, ?_⟩
    · unfold probeAfterFormat
      rw [hr]
    · rw [probeAfterFormat_snd_notok env hne]
      simp [applySentinel, CrashCheckStart]

/-- Closed instance of `c1_finish_guard` on the successful environment. -/
theorem c1_finish_guard_instance :
    (GuardEvent.finish ∈ (CheckCapabilities envSuccess).2 ↔
      envSuccess.grabOutcome = RiskyOutcome.ok) ∧
    (envSuccess.grabOutcome = RiskyOutcome.raises →
      (CheckCapabilities envSuccess).1 = ProbeResult.thrown ∧
      applySentinel false (CheckCapabilities envSuccess).2 = true) :=
  c1_finish_guard envSuccess false rfl rfl

/-- C4: if the probe reaches the feature-flag stage with a valid context and
any of the three mandatory features (NPOT textures, framebuffers, shaders)
is reported absent, `CheckCapabilities` returns the zero record, whatever the
shader-link and format-classification stages would have produced. -/
theorem c4_feature_gating (env : ProbeEnv)
    (hf : env.forceDisabled = false)
    (hw : widgetPasses env.widget = true)
    (hg : env.grabOutcome = RiskyOutcome.ok)
    (hc : env.contextValid = true)
    (hmiss : env.hasNPOTTextures = false ∨ env.hasFramebuffers = false ∨
      env.hasShaders = false) :
    (CheckCapabilities env).1 = ProbeResult.normal ⟨false, false⟩ := by
  rw [checkCapabilities_eq_probe env hf hw]
  unfold probeAfterFormat
  rw [hg]
  cases hn : env.hasNPOTTextures <;> cases hb : env.hasFramebuffers <;>
    cases hs : env.hasShaders <;> simp_all [hc]

/-- Closed instance of `c4_feature_gating` with shaders missing. -/
theorem c4_feature_gating_instance :
    (CheckCapabilities envNoShaders).1 = ProbeResult.normal ⟨false, false⟩ :=
  c4_feature_gating envNoShaders rfl rfl rfl rfl (Or.inr (Or.inr rfl))

/-- C6: for every non-Auto backend, `ChangeANGLE` (storage succeeding)
writes a token from which a fresh process's `ConfigureANGLE` resolves the
same backend — including `D3D11on12`, whose token shares the `d3d11` check's
token as a proper initial segment; and `ChangeANGLE Auto` removes the file,
after which a fresh `ConfigureANGLE` resolves `Auto`. -/
theorem c6_backend_roundtrip (b : ANGLE) (file : Option (List Char))
    (h : b ≠ ANGLE.Auto) :
    (∃ f', ChangeANGLE b file true = Except.ok f' ∧
      CurrentANGLE (ConfigureANGLE initialConfigState false f' true).1 = b) ∧
    (ChangeANGLE ANGLE.Auto file true = Except.ok none ∧
      CurrentANGLE (ConfigureANGLE initialConfigState false none true).1 =
        ANGLE.Auto) := by
  refine ⟨?_, rfl, by decide⟩
  cases b with
  | Auto => exact absurd rfl h
  | OpenGL => exact ⟨some glToken, rfl, by decide⟩
  | D3D9 => exact ⟨some d3d9Token, rfl, by decide⟩
  | D3D11 => exact ⟨some d3d11Token, rfl, by decide⟩
  | D3D11on12 => exact ⟨some d3d11on12Token, rfl, by decide⟩

/-- Closed instance of `c6_backend_roundtrip` at `D3D11on12`. -/
theorem c6_backend_roundtrip_instance :
    (∃ f', ChangeANGLE ANGLE.D3D11on12 (some d3d9Token) true = Except.ok f' ∧
      CurrentANGLE (ConfigureANGLE initialConfigState false f' true).1 =
        ANGLE.D3D11on12) ∧
    (ChangeANGLE ANGLE.Auto (some d3d9Token) true = Except.ok none ∧
      CurrentANGLE (ConfigureANGLE initialConfigState false none true).1 =
        ANGLE.Auto) :=
  c6_backend_roundtrip ANGLE.D3D11on12 (some d3d9Token) (by decide)

/-- C7 is false as stated: `ConfigureANGLE` never resets `ResolvedANGLE`, so
after an earlier call resolved `D3D9`, a call finding the file absent leaves
`D3D9`, not `Auto`; and on a present-but-empty file in a fresh process the
unknown-token warning is logged, where the claim requires none. -/
theorem c7_counterexample :
    (ConfigureANGLE ⟨ANGLE.D3D9, none⟩ false none true).1.resolvedANGLE ≠
      ANGLE.Auto ∧
    (ConfigureANGLE initialConfigState false (some []) true).2 = 1 := by
  decide

/-- C7 (amended): when the preference file is absent or unreadable,
`ConfigureANGLE` leaves `ResolvedANGLE` unchanged (hence `Auto` only if it
already was), clears the platform directive and logs nothing; when the file
is present but empty, no token matches, `ResolvedANGLE` is unchanged, the
directive stays cleared, and one warning is logged precisely when the
resolved value is `Auto`. -/
theorem c7_amended (st : ConfigState) (file : Option (List Char))
    (readOk : Bool) (h : file = none ∨ readOk = false) :
    ((ConfigureANGLE st false file readOk).1.resolvedANGLE =
        st.resolvedANGLE ∧
      (ConfigureANGLE st false file readOk).1.envANGLEPlatform = none ∧
      (ConfigureANGLE st false file readOk).2 = 0) ∧
    ((ConfigureANGLE st false (some []) true).1.resolvedANGLE =
        st.resolvedANGLE ∧
      (ConfigureANGLE st false (some []) true).1.envANGLEPlatform = none ∧
      (ConfigureANGLE st false (some []) true).2 =
        (if st.resolvedANGLE = ANGLE.Auto then 1 else 0)) := by
  constructor
  · rcases h with h | h
    · subst h; simp [ConfigureANGLE]
    · subst h; cases file <;> simp [ConfigureANGLE]
  · by_cases hA : st.resolvedANGLE = ANGLE.Auto <;>
      simp [ConfigureANGLE, checkBackend, List.isPrefixOf, glToken,
        d3d9Token, d3d11Token, d3d11on12Token, hA]

/-- Closed instance of `c7_amended` with the file absent after an earlier
resolution to `D3D11`. -/
theorem c7_amended_instance :
    ((ConfigureANGLE ⟨ANGLE.D3D11, some glToken⟩ false none true).1.resolvedANGLE =
        (ConfigState.mk ANGLE.D3D11 (some glToken)).resolvedANGLE ∧
      (ConfigureANGLE ⟨ANGLE.D3D11, some glToken⟩ false none true).1.envANGLEPlatform =
        none ∧
      (ConfigureANGLE ⟨ANGLE.D3D11, some glToken⟩ false none true).2 = 0) ∧
    ((ConfigureANGLE ⟨ANGLE.D3D11, some glToken⟩ false (some []) true).1.resolvedANGLE =
        (ConfigState.mk ANGLE.D3D11 (some glToken)).resolvedANGLE ∧
      (ConfigureANGLE ⟨ANGLE.D3D11, some glToken⟩ false (some []) true).1.envANGLEPlatform =
        none ∧
      (ConfigureANGLE ⟨ANGLE.D3D11, some glToken⟩ false (some []) true).2 =
        (if (ConfigState.mk ANGLE.D3D11 (some glToken)).resolvedANGLE =
            ANGLE.Auto then 1 else 0)) :=
  c7_amended ⟨ANGLE.D3D11, some glToken⟩ none true (Or.inl rfl)

/-- C8: in a fresh process (`ResolvedANGLE` at its start value `Auto`), a
preference file whose first 32 bytes start with none of the known backend
tokens makes `ConfigureANGLE` keep `Auto` and log exactly one warning. -/
theorem c8_unknown_token (content : List Char)
    (hgl : List.isPrefixOf glToken (List.take 32 content) = false)
    (hd9 : List.isPrefixOf d3d9Token (List.take 32 content) = false)
    (hd11 : List.isPrefixOf d3d11Token (List.take 32 content) = false)
    (hd12 : List.isPrefixOf d3d11on12Token (List.take 32 content) = false) :
    CurrentANGLE
        (ConfigureANGLE initialConfigState false (some content) true).1 =
      ANGLE.Auto ∧
    (ConfigureANGLE initialConfigState false (some content) true).2 = 1 := by
  simp [ConfigureANGLE, checkBackend, CurrentANGLE, initialConfigState,
    hgl, hd9, hd11, hd12]

/-- Closed instance of `c8_unknown_token` on the token `foo`. -/
theorem c8_unknown_token_instance :
    CurrentANGLE
        (ConfigureANGLE initialConfigState false
          (some ['f', 'o', 'o']) true).1 = ANGLE.Auto ∧
    (ConfigureANGLE initialConfigState false
      (some ['f', 'o', 'o']) true).2 = 1 :=
  c8_unknown_token ['f', 'o', 'o'] (by decide) (by decide) (by decide)
    (by decide)

/-- With the risky step returning normally, `CheckCapabilities` returns
normally: either the zero record or the success record. -/
lemma checkCapabilities_ok_normal (env : ProbeEnv)
    (hg : env.grabOutcome = RiskyOutcome.ok) :
    (CheckCapabilities env).1 = ProbeResult.normal ⟨false, false⟩ ∨
    (CheckCapabilities env).1 = ProbeResult.normal (successCaps env) := by
  unfold CheckCapabilities
  by_cases hf : env.forceDisabled = true
  · left; simp [hf]
  · simp only [hf, if_false]
    cases hwid : env.widget with
    | none => simpa using probeAfterFormat_ok_normal env hg
    | some w =>
      cases hh : w.handleOk with
      | false => left; simp [hh]
      | true =>
        cases hs2 : w.supportsGL with
        | false => left; simp [hh, hs2]
        | true => simpa [hh, hs2] using probeAfterFormat_ok_normal env hg

/-- C9 is false as stated: an execution in which the risky
context-materialization step raises an exception makes `CheckCapabilities`
propagate the exception instead of terminating normally with the zero
record. -/
theorem c9_counterexample :
    (CheckCapabilities envRaisesWidget).1 = ProbeResult.thrown ∧
    (CheckCapabilities envRaisesWidget).1 ≠
      ProbeResult.normal ⟨false, false⟩ := by
  decide

/-- C9 (amended): `ChangeANGLE` never reaches its `Unexpected` branch for any
value of the enumeration, and whenever the risky step returns normally every
failure path of `CheckCapabilities` terminates normally with the zero record;
an exception inside the risky step, however, propagates uncaught. -/
theorem c9_amended (b : ANGLE) (file : Option (List Char)) (ioOk : Bool)
    (env : ProbeEnv) (hg : env.grabOutcome = RiskyOutcome.ok) :
    (∃ f', ChangeANGLE b file ioOk = Except.ok f') ∧
    (∃ r : Capabilities, (CheckCapabilities env).1 = ProbeResult.normal r ∧
      (r.supported = false → r = ⟨false, false⟩)) := by
  constructor
  · cases b
    all_goals exact ⟨_, rfl⟩
  · rcases checkCapabilities_ok_normal env hg with h | h
    · exact ⟨⟨false, false⟩, h, fun _ => rfl⟩
    · refine ⟨successCaps env, h, fun hs => ?_⟩
      simp [successCaps] at hs

/-- Closed instance of `c9_amended`. -/
theorem c9_amended_instance :
    (∃ f', ChangeANGLE ANGLE.Auto none true = Except.ok f') ∧
    (∃ r : Capabilities,
      (CheckCapabilities envSuccess).1 = ProbeResult.normal r ∧
      (r.supported = false → r = ⟨false, false⟩)) :=
  c9_amended ANGLE.Auto none true envSuccess rfl

/-- Every outcome of `CheckCapabilities`: zero record, success record, or a
propagated exception / process death. -/
lemma checkCapabilities_fst_cases (env : ProbeEnv) :
    (CheckCapabilities env).1 = ProbeResult.normal ⟨false, false⟩ ∨
    (CheckCapabilities env).1 = ProbeResult.normal (successCaps env) ∨
    (CheckCapabilities env).1 = ProbeResult.thrown ∨
    (CheckCapabilities env).1 = ProbeResult.died := by
  unfold CheckCapabilities
  by_cases hf : env.forceDisabled = true
  · left; simp [hf]
  · simp only [hf, if_false]
    have tail : (probeAfterFormat env).1 = ProbeResult.normal ⟨false, false⟩ ∨
        (probeAfterFormat env).1 = ProbeResult.normal (successCaps env) ∨
        (probeAfterFormat env).1 = ProbeResult.thrown ∨
        (probeAfterFormat env).1 = ProbeResult.died := by
      rcases probeAfterFormat_fst_cases env with h | h | h
      · exact Or.inl h
      · exact Or.inr (Or.inl h)
      · exact Or.inr (Or.inr h.2)
    cases hwid : env.widget with
    | none => simpa using tail
    | some w =>
      cases hh : w.handleOk with
      | false => left; simp [hh]
      | true =>
        cases hs2 : w.supportsGL with
        | false => left; simp [hh, hs2]
        | true => simpa [hh, hs2] using tail

/-- C10: every `Capabilities` record returned normally by
`CheckCapabilities` satisfies transparency → supported, and every failure
result is exactly the zero record `⟨false, false⟩`. -/
theorem c10_invariant (env : ProbeEnv) (r : Capabilities)
    (h : (CheckCapabilities env).1 = ProbeResult.normal r) :
    (r.transparency = true → r.supported = true) ∧
    (r.supported = false → r = ⟨false, false⟩) := by
  rcases checkCapabilities_fst_cases env with h' | h' | h' | h'
  · rw [h] at h'
    have hr : r = ⟨false, false⟩ := by
      injection h'
    subst hr
    exact ⟨fun ht => ht, fun _ => rfl⟩
  · rw [h] at h'
    have hr : r = successCaps env := by
      injection h'
    subst hr
    refine ⟨fun _ => rfl, fun hs => ?_⟩
    simp [successCaps] at hs
  · rw [h] at h'
    cases h'
  · rw [h] at h'
    cases h'

/-- Closed instance of `c10_invariant` on the successful environment. -/
theorem c10_invariant_instance :
    ((⟨true, true⟩ : Capabilities).transparency = true →
      (⟨true, true⟩ : Capabilities).supported = true) ∧
    ((⟨true, true⟩ : Capabilities).supported = false →
      (⟨true, true⟩ : Capabilities) = ⟨false, false⟩) :=
  c10_invariant envSuccess ⟨true, true⟩ (by decide)

end UiGL
